import Mathlib

/-!
Verification of the nREPL client (src/nreplClient.ts).

The development shallowly embeds the client's pure logic:
the request-message shapes built by the operation layer, the
undefined-key stripping and connection resolution performed by "send", the
socket-error handler's effects, the per-request response-accumulation loop
driven by decoded response objects, and the post-processing done by
"clone", "listSessions", "evaluate", "evaluateFile" and "runTests".

JavaScript conventions are made explicit: a property whose value is the
undefined sentinel is an entry whose value is none; JavaScript truthiness
on a string-or-undefined value (used by the source in "clone", "runTests"
and the destructured session check) is the predicate truthyStr below;
object mutation ("delete msg[key]") is modelled by returning the caller's
object's post-call state.
-/

namespace NreplClient

/-- Wire values appearing in request messages: strings and integers
(the only value shapes the embedded messages carry). -/
inductive BVal where
  | str : String → BVal
  | int : Int → BVal
deriving DecidableEq, Repr

/-- A request message: an ordered key/value mapping. A value of none models a
JavaScript property present on the object with the undefined sentinel as its
value (such as "session: undefined" in the source's clone call). -/
abbrev Message := List (String × Option BVal)

/-- Line 159 of nreplClient.ts:
Object.keys(msg).forEach(key => msg[key] === undefined && delete msg[key]).
Every key holding the undefined sentinel is deleted; the deletion happens on
the caller's object itself, before the message is encoded and written. -/
def stripUndefined (msg : Message) : Message :=
  msg.filter (fun kv => kv.2.isSome)

/-- The caller's message object as observable after send has run its
synchronous prelude (send mutates the message in place on line 159). -/
def sendCallerMsgAfter (msg : Message) : Message :=
  stripUndefined msg

/-- The Response interface of nreplClient.ts, restricted to the fields the
embedded control flow reads: "session", "status", "new-session" (spelled
newSession) and "sessions". The remaining fields (file, line, doc, ...) are
payload never inspected by the logic under verification. -/
structure Response where
  session : Option String := none
  status : Option (List String) := none
  newSession : Option String := none
  sessions : Option (List String) := none
deriving DecidableEq, Repr

/-- JavaScript truthiness of a string-or-undefined value: undefined and the
empty string are falsy, every other string is truthy. -/
def truthyStr : Option String → Bool
  | none => false
  | some s => decide (s ≠ (""))

/-- Does a response object's status list exist and contain "done"?
Models the conjunction on line 207: !!lastObj.status and
lastObj.status.indexOf(a done marker) > -1. An absent status is falsy; an
empty status list is truthy in JavaScript but contains no marker. -/
def hasDoneStatus (r : Response) : Bool :=
  match r.status with
  | some st => st.contains ("done")
  | none => false

/-- Lines 205-208: isLastNreplObject takes the last element of the list
([...nreplObjects].pop()) and tests it for the completion marker. -/
def isLastNreplObject (nreplObjects : List Response) : Bool :=
  match nreplObjects.getLast? with
  | some lastObj => hasDoneStatus lastObj
  | none => false

/-- The reducer body on lines 178-182: push the freshly decoded object only
when the batch accumulated so far does not already end in a completion
object. -/
def pushStep (objs : List Response) (obj : Response) : List Response :=
  if isLastNreplObject objs then objs else objs ++ [obj]

/-- Lines 178-182: one data event's decoded objects are filtered through the
reducer, starting from an empty accumulator. -/
def processBatch (decodedObjects : List Response) : List Response :=
  decodedObjects.foldl pushStep []

/-- The per-request accumulation state of the data handler (lines 172-201):
the ordered response objects collected so far and, once the completion
marker has been seen, the list the pending promise resolved with. A some
value of resolved also records that removeAllListeners has run, so later
data events are not observed. -/
structure DataState where
  respObjects : List Response
  resolved : Option (List Response)
deriving DecidableEq, Repr

/-- The state before any data arrives (lines 172-173). -/
def initialDataState : DataState := ⟨[], none⟩

/-- One data event (lines 174-201), taken at the level of the decoded
response objects the codec produced from the accumulated buffer: filter the
batch through the reducer, append to respObjects, and if the collected list
now ends in a completion object, detach the listeners and resolve with it. -/
def onData (s : DataState) (decodedObjects : List Response) : DataState :=
  match s.resolved with
  | some _ => s
  | none =>
    let validDecodedObjects := processBatch decodedObjects
    let objs := s.respObjects ++ validDecodedObjects
    if isLastNreplObject objs then ⟨objs, some objs⟩ else ⟨objs, none⟩

/-- Run the data handler from a given state over a sequence of data events
(each event given by its batch of decoded objects). -/
def runDataFrom (s : DataState) (batches : List (List Response)) : DataState :=
  batches.foldl onData s

/-- A whole in-flight send call's data handling, from the initial state. -/
def runData (batches : List (List Response)) : DataState :=
  runDataFrom initialDataState batches

/-- Host and port of the remote endpoint (CljConnectionInformation). -/
structure CljConnectionInformation where
  host : String
  port : Nat
deriving DecidableEq, Repr

/-- Line 153: connection = connection || cljConnection.getConnection().
A connection object is always truthy, so the caller's argument takes
precedence and the process-wide current connection is the fallback. -/
def resolveConnection (connection currentConnection : Option CljConnectionInformation) :
    Option CljConnectionInformation :=
  match connection with
  | some c => some c
  | none => currentConnection

/-- Outcome of send's synchronous prelude (lines 152-158): either the
promise is rejected with the no-connection message before any socket
exists, or a socket is opened to the resolved connection. -/
inductive SendInit where
  | rejected : String → SendInit
  | socketOpened : CljConnectionInformation → SendInit
deriving DecidableEq, Repr

/-- Lines 152-158: resolve the connection; reject with the no-connection
message when none is available (the reject happens before
net.createConnection runs), otherwise open the socket. -/
def sendInit (connection currentConnection : Option CljConnectionInformation) : SendInit :=
  match resolveConnection connection currentConnection with
  | none => SendInit.rejected ("No connection found.")
  | some c => SendInit.socketOpened c

/-- The observable actions of send's error handler, in order. -/
inductive Effect where
  | socketEnd : Effect
  | removeAllListeners : Effect
  | showErrorMessage : String → Effect
  | disconnect : Effect
  | rejectError : String → Effect
deriving DecidableEq, Repr

/-- Lines 162-170: on a socket error, end the socket, detach every listener,
additionally notify the host and invalidate the shared connection when the
error code is ECONNREFUSED, and reject the pending promise with the error. -/
def onSocketError (errorCode : String) : List Effect :=
  [Effect.socketEnd, Effect.removeAllListeners] ++
    (if errorCode = ("ECONNREFUSED") then
      [Effect.showErrorMessage ("Connection refused."), Effect.disconnect]
    else []) ++
    [Effect.rejectError errorCode]

/-- Is an effect a host notification (vscode.window.showErrorMessage)? -/
def isHostNotice : Effect → Bool
  | Effect.showErrorMessage _ => true
  | _ => false

/-- Lines 109-118, the continuation of clone on the resolved response
objects: map to the new-session values, keep the truthy ones (JavaScript
filter(s => s) drops both undefined and the empty string), destructure the
first, and resolve with it when it is truthy, else reject. -/
def cloneResult (respObjs : List Response) : Except String String :=
  match ((respObjs.map Response.newSession).filter truthyStr).head? with
  | some (some s) => if s = ("") then Except.error ("No session found") else Except.ok s
  | some none => Except.error ("No session found")
  | none => Except.error ("No session found")

/-- The first non-empty new-session value among the response objects, in
order. Spec-side reformulation used to state the amended clone contract. -/
def firstNonemptyNewSession (respObjs : List Response) : Option String :=
  (respObjs.filterMap Response.newSession).find? (fun s => decide (s ≠ ("")))

/-- Lines 134-144, the continuation of listSessions on the first resolved
response object: response.status && response.status[0] == "done" &&
response.sessions. An absent status or sessions key is falsy; status[0]
reads the first element only. -/
def listSessionsResult (response : Response) : Except String (List String) :=
  match response.status with
  | none => Except.error ("No sessions found")
  | some st =>
    if st.head? = some ("done") then
      match response.sessions with
      | some ss => Except.ok ss
      | none => Except.error ("No sessions found")
    else Except.error ("No sessions found")

/-- Line 110: the clone request, { op: 'clone', session: session }. The
session property is present on the object even when the argument was
undefined; send strips it before encoding in that case. -/
def cloneMsg (session : Option String) : Message :=
  [(("op"), some (BVal.str ("clone"))), (("session"), session.map BVal.str)]

/-- Line 89: the nREPLSingleEvalMessage built by evaluate,
{ op: 'eval', code: code, session: session_id }. -/
def evalMsg (code : String) (session_id : String) : Message :=
  [(("op"), some (BVal.str ("eval"))), (("code"), some (BVal.str code)),
    (("session"), some (BVal.str session_id))]

/-- Line 94: the nREPLEvalMessage built by evaluateFile,
{ op: 'load-file', file: code, 'file-path': filepath, session: session_id }. -/
def loadFileMsg (file filepath : String) (session_id : String) : Message :=
  [(("op"), some (BVal.str ("load-file"))), (("file"), some (BVal.str file)),
    (("file-path"), some (BVal.str filepath)),
    (("session"), some (BVal.str session_id))]

/-- Lines 100-107: the TestMessage built by runTests,
{ op: (namespace ? "test" : "test-all"), ns: namespace, 'load?': 1 }.
The op ternary uses JavaScript truthiness of the namespace argument. -/
def runTestsMsg (nsArg : Option String) : Message :=
  [(("op"), some (BVal.str (if truthyStr nsArg then ("test") else ("test-all")))),
    (("ns"), nsArg.map BVal.str),
    (("load?"), some (BVal.int 1))]

/-- Lines 88-91: evaluate(code, session?) first runs clone(session); when the
clone's response objects yield a session id, the eval request is built with
that id. The embedding takes the clone's resolved response objects as input
and yields the eval request evaluate goes on to send. -/
def evaluate (code : String) (cloneRespObjs : List Response) : Except String Message :=
  (cloneResult cloneRespObjs).map (fun session_id => evalMsg code session_id)

/-- Lines 93-96: evaluateFile, same pipeline with the load-file request. -/
def evaluateFile (code filepath : String) (cloneRespObjs : List Response) :
    Except String Message :=
  (cloneResult cloneRespObjs).map (fun session_id => loadFileMsg code filepath session_id)

/-- The value at the "session" key of a message: none when the key is
absent, some v when the key is present holding v (v itself is none for a
key holding the undefined sentinel). -/
def sessionValue (m : Message) : Option (Option BVal) :=
  (m.find? (fun kv => kv.1 = ("session"))).map Prod.snd

/-- A sample completion object: status contains the done marker. -/
def doneResp : Response := ⟨none, some [("done")], none, none⟩

/-- A sample non-completion object: a payload object with no status. -/
def trailingResp : Response := ⟨some ("leftover"), none, none, none⟩

/-- The invariant of the data handler's state: while unresolved, no
collected object carries the done marker (a completion object triggers
immediate resolution); once resolved, the resolved list is the collected
list, only its last element can carry the done marker, and it does. -/
def GoodState (s : DataState) : Prop :=
  (s.resolved = none → ∀ r ∈ s.respObjects, hasDoneStatus r = false) ∧
  (∀ L, s.resolved = some L →
    s.respObjects = L ∧ (∀ r ∈ L.dropLast, hasDoneStatus r = false) ∧
      isLastNreplObject L = true)

theorem isLast_concat (l : List Response) (a : Response) :
    isLastNreplObject (l ++ [a]) = hasDoneStatus a := by
  simp [isLastNreplObject, List.getLast?_concat]

theorem isLast_append (A V : List Response) (h : V ≠ []) :
    isLastNreplObject (A ++ V) = isLastNreplObject V := by
  simp [isLastNreplObject, List.getLast?_append_of_ne_nil _ h]

theorem isLast_false_of_all (l : List Response)
    (h : ∀ r ∈ l, hasDoneStatus r = false) : isLastNreplObject l = false := by
  cases hg : l.getLast? with
  | none => simp [isLastNreplObject, hg]
  | some r =>
    obtain ⟨ys, rfl⟩ := List.getLast?_eq_some_iff.mp hg
    rw [isLast_concat]
    exact h r (by simp)

theorem all_not_done_of_isLast_false (l : List Response)
    (hd : ∀ r ∈ l.dropLast, hasDoneStatus r = false)
    (hl : isLastNreplObject l = false) :
    ∀ r ∈ l, hasDoneStatus r = false := by
  rcases List.eq_nil_or_concat l with rfl | ⟨ys, a, rfl⟩
  · simp
  · intro r hr
    rw [List.concat_eq_append] at hr hd hl
    rw [List.dropLast_concat] at hd
    rw [isLast_concat] at hl
    rcases List.mem_append.mp hr with h1 | h2
    · exact hd r h1
    · rw [List.mem_singleton.mp h2]; exact hl

theorem foldl_pushStep_dropLast (batch : List Response) :
    ∀ acc : List Response, (∀ r ∈ acc.dropLast, hasDoneStatus r = false) →
      ∀ r ∈ (batch.foldl pushStep acc).dropLast, hasDoneStatus r = false := by
  induction batch with
  | nil => intro acc hacc; simpa using hacc
  | cons b bs ih =>
    intro acc hacc
    rw [List.foldl_cons]
    apply ih
    unfold pushStep
    by_cases h : isLastNreplObject acc = true
    · rw [if_pos h]; exact hacc
    · rw [if_neg h, List.dropLast_concat]
      exact all_not_done_of_isLast_false acc hacc (Bool.eq_false_iff.mpr h)

theorem processBatch_dropLast (batch : List Response) :
    ∀ r ∈ (processBatch batch).dropLast, hasDoneStatus r = false :=
  foldl_pushStep_dropLast batch [] (by simp)

theorem goodState_initial : GoodState initialDataState := by
  constructor
  · intro _ r hr; simp [initialDataState] at hr
  · intro L hL; simp [initialDataState] at hL

theorem goodState_onData (s : DataState) (batch : List Response)
    (h : GoodState s) : GoodState (onData s batch) := by
  rcases s with ⟨objs0, res⟩
  cases res with
  | some L => exact h
  | none =>
    have hClean : ∀ r ∈ objs0, hasDoneStatus r = false := h.1 rfl
    have hV : ∀ r ∈ (processBatch batch).dropLast, hasDoneStatus r = false :=
      processBatch_dropLast batch
    show GoodState (if isLastNreplObject (objs0 ++ processBatch batch) then
        ⟨objs0 ++ processBatch batch, some (objs0 ++ processBatch batch)⟩
      else ⟨objs0 ++ processBatch batch, none⟩)
    by_cases hL : isLastNreplObject (objs0 ++ processBatch batch) = true
    · rw [if_pos hL]
      constructor
      · intro hnone; exact absurd hnone (by simp)
      · intro L hL2
        have hobjs : objs0 ++ processBatch batch = L := by
          simpa using hL2
        subst hobjs
        have hVne : processBatch batch ≠ [] := by
          intro he
          rw [he, List.append_nil] at hL
          rw [isLast_false_of_all objs0 hClean] at hL
          exact Bool.noConfusion hL
        refine ⟨rfl, ?_, hL⟩
        rw [List.dropLast_append_of_ne_nil _ hVne]
        intro r hr
        rcases List.mem_append.mp hr with h1 | h2
        · exact hClean r h1
        · exact hV r h2
    · rw [if_neg hL]
      constructor
      · intro _ r hr
        rcases List.mem_append.mp hr with h1 | h2
        · exact hClean r h1
        · by_cases hVne : processBatch batch = []
          · rw [hVne] at h2; simp at h2
          · have hIV : isLastNreplObject (processBatch batch) = false := by
              rw [← isLast_append objs0 (processBatch batch) hVne]
              exact Bool.eq_false_iff.mpr hL
            exact all_not_done_of_isLast_false _ hV hIV r h2
      · intro L hL2; simp at hL2

theorem goodState_runDataFrom (batches : List (List Response)) :
    ∀ s : DataState, GoodState s → GoodState (runDataFrom s batches) := by
  induction batches with
  | nil => intro s hs; exact hs
  | cons b bs ih =>
    intro s hs
    rw [runDataFrom, List.foldl_cons]
    exact ih (onData s b) (goodState_onData s b hs)

theorem onData_of_resolved (s : DataState) (batch : List Response) (L : List Response)
    (h : s.resolved = some L) : onData s batch = s := by
  rcases s with ⟨objs0, res⟩
  cases res with
  | some X => rfl
  | none => exact absurd h (by simp)

theorem runDataFrom_of_resolved (more : List (List Response)) :
    ∀ (s : DataState) (L : List Response), s.resolved = some L → runDataFrom s more = s := by
  induction more with
  | nil => intro s L _; rfl
  | cons b bs ih =>
    intro s L h
    rw [runDataFrom, List.foldl_cons, onData_of_resolved s b L h]
    exact ih s L h

theorem filter_truthy_head (l : List Response) :
    ((l.map Response.newSession).filter truthyStr).head? =
      (firstNonemptyNewSession l).map some := by
  unfold firstNonemptyNewSession
  induction l with
  | nil => rfl
  | cons r tl ih =>
    cases h : r.newSession with
    | none => simpa [h, truthyStr] using ih
    | some s =>
      by_cases hs : s = ("")
      · subst hs; simpa [h, truthyStr] using ih
      · simp [h, truthyStr, hs]

theorem cloneResult_eq_firstNonempty (l : List Response) :
    cloneResult l =
      (match firstNonemptyNewSession l with
        | some s => Except.ok s
        | none => Except.error ("No session found")) := by
  unfold cloneResult
  rw [filter_truthy_head]
  cases hf : firstNonemptyNewSession l with
  | none => rfl
  | some s =>
    have hs : s ≠ ("") := by
      unfold firstNonemptyNewSession at hf
      simpa using List.find?_some hf
    simp [hs]

/-- C1: for every sequence of decoded response objects delivered to an
in-flight send call, the resolved list contains no object positioned after
the first completion object: every element before the last lacks the done
marker, the last carries it, and once resolved no later data event changes
the outcome (objects decoded after completion, in the same batch or later,
are dropped and never observed). -/
theorem c1_resolved_list_stops_at_completion (batches : List (List Response))
    (L : List Response) (h : (runData batches).resolved = some L) :
    (∀ r ∈ L.dropLast, hasDoneStatus r = false) ∧ isLastNreplObject L = true ∧
      ∀ more, runDataFrom (runData batches) more = runData batches := by
  have hg : GoodState (runData batches) :=
    goodState_runDataFrom batches initialDataState goodState_initial
  obtain ⟨-, hdrop, hlast⟩ := hg.2 L h
  exact ⟨hdrop, hlast, fun more => runDataFrom_of_resolved more _ L h⟩

/-- Witness for C1 at a concrete run: a completion object followed by a
trailing object in the same batch, then a further batch; the call resolves
with only the completion object. -/
theorem c1_witness :
    (runData [[doneResp, trailingResp], [trailingResp]]).resolved = some [doneResp] ∧
      ((∀ r ∈ ([doneResp] : List Response).dropLast, hasDoneStatus r = false) ∧
        isLastNreplObject [doneResp] = true ∧
        ∀ more, runDataFrom (runData [[doneResp, trailingResp], [trailingResp]]) more =
          runData [[doneResp, trailingResp], [trailingResp]]) :=
  ⟨by decide,
    c1_resolved_list_stops_at_completion [[doneResp, trailingResp], [trailingResp]]
      [doneResp] (by decide)⟩

/-- C9: whenever a send call's promise resolves, the resolved list of
response objects is non-empty and its last element's status contains the
done marker; consequently operations reading the first element find at
least one object present. -/
theorem c9_resolved_nonempty_last_done (batches : List (List Response))
    (L : List Response) (h : (runData batches).resolved = some L) :
    L ≠ [] ∧ isLastNreplObject L = true ∧ L.head?.isSome = true := by
  have hg : GoodState (runData batches) :=
    goodState_runDataFrom batches initialDataState goodState_initial
  obtain ⟨-, -, hlast⟩ := hg.2 L h
  have hne : L ≠ [] := by
    intro he; rw [he] at hlast; exact Bool.noConfusion hlast
  refine ⟨hne, hlast, ?_⟩
  cases L with
  | nil => exact absurd rfl hne
  | cons a tl => rfl

/-- Witness for C9 at a concrete run: a payload object then a completion
object in one batch; the call resolves with both, the last carrying done. -/
theorem c9_witness :
    (runData [[trailingResp, doneResp]]).resolved = some [trailingResp, doneResp] ∧
      (([trailingResp, doneResp] : List Response) ≠ [] ∧
        isLastNreplObject [trailingResp, doneResp] = true ∧
        ([trailingResp, doneResp] : List Response).head?.isSome = true) :=
  ⟨by decide, c9_resolved_nonempty_last_done [[trailingResp, doneResp]]
    [trailingResp, doneResp] (by decide)⟩

/-- C2 counterexample: a first response object whose status list includes
the done marker (but not in first position) and which carries a sessions
list is nevertheless rejected, because listSessions tests status[0] only. -/
theorem c2_counterexample :
    listSessionsResult ⟨none, some [("eval-error"), ("done")], none, some [("s1")]⟩ =
        Except.error ("No sessions found") ∧
      (("done") ∈ [("eval-error"), ("done")] ∧
        (⟨none, some [("eval-error"), ("done")], none, some [("s1")]⟩ : Response).sessions.isSome
          = true) :=
  ⟨rfl, by decide, by decide⟩

/-- C2 amended: listSessions resolves with the first response object's
sessions list if and only if that object's status list is present with
"done" as its FIRST element and the object carries a sessions list; in
every other case it rejects with the no-sessions error. -/
theorem c2_amended_first_status_done (r : Response) (ss : List String) :
    listSessionsResult r = Except.ok ss ↔
      (r.status.bind List.head? = some ("done") ∧ r.sessions = some ss) := by
  rcases r with ⟨sess, status, nsv, sessions⟩
  cases status with
  | none => simp [listSessionsResult]
  | some st =>
    by_cases h : st.head? = some ("done")
    · cases sessions with
      | none => simp [listSessionsResult, h]
      | some ss2 => simp [listSessionsResult, h]
    · cases sessions with
      | none => simp [listSessionsResult, h]
      | some ss2 => simp [listSessionsResult, h]

/-- C3 counterexample: a response object carrying a new-session value (the
empty string) is skipped by clone's truthiness filter, so the call rejects
although an object with a new-session value exists. -/
theorem c3_counterexample :
    ((⟨none, none, some (""), none⟩ : Response).newSession.isSome = true) ∧
      cloneResult [⟨none, none, some (""), none⟩] = Except.error ("No session found") :=
  ⟨by decide, rfl⟩

/-- C3 amended: clone resolves with the first NON-EMPTY new-session value
among the response objects, in order, and rejects with the no-session error
exactly when no response object carries a non-empty new-session value; the
clone request carries the supplied session and, when none was supplied, the
stripped request omits the session key entirely. -/
theorem c3_amended_clone_first_nonempty (respObjs : List Response) (s es : String) :
    (cloneResult respObjs = Except.ok s ↔ firstNonemptyNewSession respObjs = some s) ∧
      (cloneResult respObjs = Except.error ("No session found") ↔
        firstNonemptyNewSession respObjs = none) ∧
      stripUndefined (cloneMsg none) = [(("op"), some (BVal.str ("clone")))] ∧
      (("session"), some (BVal.str es)) ∈ stripUndefined (cloneMsg (some es)) := by
  refine ⟨?_, ?_, rfl, ?_⟩
  · rw [cloneResult_eq_firstNonempty]
    cases hf : firstNonemptyNewSession respObjs <;> simp
  · rw [cloneResult_eq_firstNonempty]
    cases hf : firstNonemptyNewSession respObjs <;> simp
  · simp [cloneMsg, stripUndefined]

/-- C4: every key holding the undefined sentinel is removed before encoding,
so the transmitted request contains no such key and retains exactly the
defined entries; in particular the eval request with an undefined session
transmits only the op and code keys. -/
theorem c4_undefined_keys_stripped (msg : Message) (k : String) (v : BVal) :
    ((k, (none : Option BVal)) ∉ stripUndefined msg) ∧
      (((k, some v) ∈ stripUndefined msg) ↔ (k, some v) ∈ msg) ∧
      stripUndefined [(("op"), some (BVal.str ("eval"))),
          (("code"), some (BVal.str ("(+ 1 2)"))), (("session"), (none : Option BVal))] =
        [(("op"), some (BVal.str ("eval"))), (("code"), some (BVal.str ("(+ 1 2)")))] := by
  refine ⟨?_, ?_, by decide⟩
  · simp [stripUndefined, List.mem_filter]
  · simp [stripUndefined, List.mem_filter]

/-- C5: when neither a caller-supplied connection nor a current connection
exists, send rejects with the no-connection message and never opens a
socket; a caller-supplied connection always takes precedence, and the
current connection is used only as fallback. -/
theorem c5_no_connection_rejects_before_socket (c cur : CljConnectionInformation) :
    sendInit none none = SendInit.rejected ("No connection found.") ∧
      (∀ c2, sendInit none none ≠ SendInit.socketOpened c2) ∧
      (∀ cur2 : Option CljConnectionInformation,
        sendInit (some c) cur2 = SendInit.socketOpened c) ∧
      sendInit none (some cur) = SendInit.socketOpened cur := by
  refine ⟨rfl, ?_, ?_, rfl⟩
  · intro c2 hEq; exact SendInit.noConfusion hEq
  · intro cur2; rfl

/-- C6: every socket error ends the socket, detaches all listeners and
rejects the pending promise with the error; a connection-refused error
additionally shows exactly one host notification and invalidates the shared
connection, and no error code ever notifies more than once. -/
theorem c6_socket_error_effects (errorCode : String) :
    Effect.socketEnd ∈ onSocketError errorCode ∧
      Effect.removeAllListeners ∈ onSocketError errorCode ∧
      Effect.rejectError errorCode ∈ onSocketError errorCode ∧
      ((onSocketError ("ECONNREFUSED")).filter isHostNotice).length = 1 ∧
      Effect.disconnect ∈ onSocketError ("ECONNREFUSED") ∧
      (∀ code2, ((onSocketError code2).filter isHostNotice).length ≤ 1) := by
  refine ⟨?_, ?_, ?_, by decide, by decide, ?_⟩
  · simp [onSocketError]
  · simp [onSocketError]
  · simp [onSocketError]
  · intro code2
    by_cases h : code2 = ("ECONNREFUSED") <;> simp [onSocketError, h, isHostNotice]

/-- C7: evaluate and evaluateFile first clone (passing the caller's session,
or none, in the clone request) and tag their eval / load-file request with
the session id the clone yielded, never with the caller's passed session;
two calls whose clones yield distinct ids use distinct session ids. -/
theorem c7_eval_runs_in_cloned_session (code filepath : String)
    (callerSession : Option String) (resp1 resp2 : List Response) (s1 s2 : String)
    (h1 : cloneResult resp1 = Except.ok s1) (h2 : cloneResult resp2 = Except.ok s2) :
    evaluate code resp1 = Except.ok (evalMsg code s1) ∧
      evaluateFile code filepath resp2 = Except.ok (loadFileMsg code filepath s2) ∧
      sessionValue (evalMsg code s1) = some (some (BVal.str s1)) ∧
      sessionValue (loadFileMsg code filepath s2) = some (some (BVal.str s2)) ∧
      sessionValue (cloneMsg callerSession) = some (callerSession.map BVal.str) ∧
      (∀ cs, callerSession = some cs → cs ≠ s1 →
        sessionValue (evalMsg code s1) ≠ some (some (BVal.str cs))) ∧
      (s1 ≠ s2 → sessionValue (evalMsg code s1) ≠ sessionValue (evalMsg code s2)) := by
  refine ⟨?_, ?_, ?_, ?_, ?_, ?_, ?_⟩
  · rw [evaluate, h1]; rfl
  · rw [evaluateFile, h2]; rfl
  · simp [sessionValue, evalMsg]
  · simp [sessionValue, loadFileMsg]
  · simp [sessionValue, cloneMsg]
  · intro cs hcs hne hEq
    simp [sessionValue, evalMsg] at hEq
    exact hne hEq.symm
  · intro hne hEq
    simp [sessionValue, evalMsg] at hEq
    exact hne hEq

/-- Witness for C7 at concrete inputs: two clone responses yielding sid1 and
sid2; the eval and load-file requests carry the cloned ids, not the
caller's session. -/
theorem c7_witness :
    cloneResult [⟨none, none, some ("sid1"), none⟩] = Except.ok ("sid1") ∧
      cloneResult [⟨none, none, some ("sid2"), none⟩] = Except.ok ("sid2") ∧
      (evaluate ("(+ 1 1)") [⟨none, none, some ("sid1"), none⟩] =
          Except.ok (evalMsg ("(+ 1 1)") ("sid1")) ∧
        evaluateFile ("(+ 1 1)") ("core.clj") [⟨none, none, some ("sid2"), none⟩] =
          Except.ok (loadFileMsg ("(+ 1 1)") ("core.clj") ("sid2")) ∧
        sessionValue (evalMsg ("(+ 1 1)") ("sid1")) = some (some (BVal.str ("sid1"))) ∧
        sessionValue (loadFileMsg ("(+ 1 1)") ("core.clj") ("sid2")) =
          some (some (BVal.str ("sid2"))) ∧
        sessionValue (cloneMsg (some ("caller"))) =
          some ((some ("caller") : Option String).map BVal.str) ∧
        (∀ cs, (some ("caller") : Option String) = some cs → cs ≠ ("sid1") →
          sessionValue (evalMsg ("(+ 1 1)") ("sid1")) ≠ some (some (BVal.str cs))) ∧
        ((("sid1") : String) ≠ ("sid2") →
          sessionValue (evalMsg ("(+ 1 1)") ("sid1")) ≠
            sessionValue (evalMsg ("(+ 1 1)") ("sid2")))) :=
  ⟨rfl, rfl,
    c7_eval_runs_in_cloned_session ("(+ 1 1)") ("core.clj") (some ("caller"))
      [⟨none, none, some ("sid1"), none⟩] [⟨none, none, some ("sid2"), none⟩]
      ("sid1") ("sid2") rfl rfl⟩

/-- C8 counterexample: an empty-string namespace argument is a supplied
argument, yet the ternary's JavaScript truthiness picks op test-all. -/
theorem c8_counterexample :
    runTestsMsg (some ("")) =
        [(("op"), some (BVal.str ("test-all"))), (("ns"), some (BVal.str (""))),
          (("load?"), some (BVal.int 1))] ∧
      (some ("") : Option String) ≠ none :=
  ⟨by decide, by decide⟩

/-- C8 amended: runTests picks op test when the namespace argument is a
non-empty string, and test-all when it is absent or empty; the request
always carries the load-before-test flag set to 1. -/
theorem c8_amended_runTests_op (ns : String) :
    runTestsMsg none =
        [(("op"), some (BVal.str ("test-all"))), (("ns"), none),
          (("load?"), some (BVal.int 1))] ∧
      runTestsMsg (some ns) =
        [(("op"), some (BVal.str (if ns = ("") then ("test-all") else ("test")))),
          (("ns"), some (BVal.str ns)), (("load?"), some (BVal.int 1))] ∧
      (∀ nsArg : Option String, (("load?"), some (BVal.int 1)) ∈ runTestsMsg nsArg) := by
  refine ⟨rfl, ?_, ?_⟩
  · by_cases h : ns = ("") <;> simp [runTestsMsg, truthyStr, h]
  · intro nsArg; simp [runTestsMsg]

/-- C10: send deletes every undefined-valued key from the caller's own
message object before encoding, observably to the caller: after the call
the object holds only defined entries, and the runTests message built with
no namespace has lost its ns key. -/
theorem c10_send_mutates_caller_message (msg : Message) :
    (sendCallerMsgAfter msg).all (fun kv => kv.2.isSome) = true ∧
      ((("ns"), (none : Option BVal)) ∈ runTestsMsg none) ∧
      (∀ v : Option BVal, (("ns"), v) ∉ sendCallerMsgAfter (runTestsMsg none)) ∧
      sendCallerMsgAfter (runTestsMsg none) ≠ runTestsMsg none ∧
      sendCallerMsgAfter msg = stripUndefined msg := by
  refine ⟨?_, by decide, ?_, by decide, rfl⟩
  · simp only [sendCallerMsgAfter, stripUndefined, List.all_eq_true]
    exact fun kv hkv => (List.mem_filter.mp hkv).2
  · intro v
    simp [sendCallerMsgAfter, stripUndefined, runTestsMsg, truthyStr]

end NreplClient
